/-
Verification of the carbon-footprint computation and grid-forecasting
pipeline of the cloud-project repository.

The definitions below are a shallow embedding of the Python sources:
  profiling-worker/carbon_profiler.py  (grid-intensity resolution with
    cache and fallback, carbon attribution, the processing loop)
  ml-predictor/grid_predictor.py       (recommendation tier classification,
    lazy model loading)
  ml-predictor/predictor_api.py        (the HTTP route guards)

Python floats are modelled as rationals; the external HTTP provider is
modelled by passing the outcome a live fetch would have as an explicit
parameter, together with a flag recording whether an HTTP request was
actually issued.
-/
import Mathlib

namespace CloudProject

/-! ## Fallback table and embodied-carbon profiles (carbon_profiler.py lines 26 to 55) -/

/-- Embedding of FALLBACK_GRID_INTENSITY, the regional fallback table in
gCO2eq per kWh, including the dictionary entry keyed "default". -/
def FALLBACK_GRID_INTENSITY : List (String × ℚ) :=
  [("IN", 632), ("US", 417), ("EU", 295), ("CN", 555), ("default", 475)]

/-- Embedding of the Python expression
FALLBACK_GRID_INTENSITY.get(country_code, FALLBACK_GRID_INTENSITY["default"]):
a missing or unknown country code yields the global default 475.  A country
code of None in Python is never a dictionary key, hence also 475. -/
def fallbackFor (country_code : Option String) : ℚ :=
  match country_code with
  | none => 475
  | some c =>
    match FALLBACK_GRID_INTENSITY.lookup c with
    | some v => v
    | none => 475

/-- Embedding of EMBODIED_CARBON_KG (total embodied carbon per device class, kg). -/
def EMBODIED_CARBON_KG : List (String × ℚ) :=
  [("smartphone", 50), ("tablet", 100), ("laptop", 200),
   ("desktop", 300), ("workstation", 400), ("server", 1500)]

/-- Embedding of EXPECTED_LIFETIME_YEARS (expected device lifetime, years). -/
def EXPECTED_LIFETIME_YEARS : List (String × ℚ) :=
  [("smartphone", 5/2), ("tablet", 3), ("laptop", 4),
   ("desktop", 5), ("workstation", 5), ("server", 5)]

/-- Embedding of EMBODIED_CARBON_KG.get(device_type, EMBODIED_CARBON_KG["laptop"]);
the laptop entry is 200 kg. -/
def embodiedKgFor (device_type : String) : ℚ :=
  match EMBODIED_CARBON_KG.lookup device_type with
  | some v => v
  | none => 200

/-- Embedding of EXPECTED_LIFETIME_YEARS.get(device_type, EXPECTED_LIFETIME_YEARS["laptop"]);
the laptop entry is 4 years. -/
def lifetimeFor (device_type : String) : ℚ :=
  match EXPECTED_LIFETIME_YEARS.lookup device_type with
  | some v => v
  | none => 4

/-- Embedding of calculate_embodied_carbon_per_measurement
(carbon_profiler.py lines 199 to 208): straight-line amortization of the
total embodied grams over the number of sample intervals in the lifetime. -/
def calculate_embodied_carbon_per_measurement
    (device_type : String) (measurement_interval_seconds : ℚ) : ℚ :=
  let embodied_total_kg := embodiedKgFor device_type
  let lifetime_years := lifetimeFor device_type
  let total_lifetime_seconds := lifetime_years * 365 * 24 * 3600
  let total_measurements := total_lifetime_seconds / measurement_interval_seconds
  (embodied_total_kg * 1000) / total_measurements

/-! ## Carbon attribution (carbon_profiler.py lines 257 to 271) -/

/-- Result of attributing one reading: the four computed quantities stored
into a footprint record. -/
structure AttributionResult where
  power_kwh : ℚ
  operational_carbon_gco2 : ℚ
  embodied_carbon_gco2 : ℚ
  total_carbon_gco2 : ℚ
deriving DecidableEq, Repr

/-- Embedding of the per-metric attribution arithmetic inside
process_unprocessed_metrics (carbon_profiler.py lines 257 to 271):
power_kwh = (total_power_watts * 5) / (1000 * 3600),
operational = power_kwh * grid_intensity,
embodied from calculate_embodied_carbon_per_measurement at a 5 second
interval, total = operational + embodied.  The source applies this
unconditionally: there is no validity check on the power value. -/
def attribute_carbon (power_watts grid_intensity : ℚ) (device_type : String) :
    AttributionResult :=
  let power_kwh := (power_watts * 5) / (1000 * 3600)
  let operational_carbon_gco2 := power_kwh * grid_intensity
  let embodied_carbon_gco2 :=
    calculate_embodied_carbon_per_measurement device_type 5
  { power_kwh := power_kwh
    operational_carbon_gco2 := operational_carbon_gco2
    embodied_carbon_gco2 := embodied_carbon_gco2
    total_carbon_gco2 := operational_carbon_gco2 + embodied_carbon_gco2 }

/-! ## Grid-intensity cache and resolution (carbon_profiler.py lines 112 to 197) -/

/-- Round half to even at integer precision, as Python round does on exact
values. -/
def roundHalfToEven (x : ℚ) : ℤ :=
  let f : ℤ := ⌊x⌋
  let frac := x - f
  if frac < 1/2 then f
  else if 1/2 < frac then f + 1
  else if f % 2 = 0 then f else f + 1

/-- Embedding of round(x, 1): round to one decimal place. -/
def pyRound1 (x : ℚ) : ℚ := (roundHalfToEven (x * 10) : ℚ) / 10

/-- Embedding of the cache key built at carbon_profiler.py line 171:
latitude and longitude each rounded to one decimal place. -/
def cache_key (lat lon : ℚ) : ℚ × ℚ := (pyRound1 lat, pyRound1 lon)

/-- One entry of grid_intensity_cache: the fetched value and the fetch
timestamp, written together. -/
structure CacheEntry where
  value : ℚ
  timestamp : ℚ
deriving DecidableEq, Repr

/-- The module-level grid_intensity_cache dictionary, as an association
list with shadowing removed on insert. -/
abbrev Cache := List ((ℚ × ℚ) × CacheEntry)

/-- Dictionary lookup on the cache. -/
def cacheLookup (cache : Cache) (k : ℚ × ℚ) : Option CacheEntry :=
  match cache with
  | [] => none
  | (k2, e) :: rest => if k2 = k then some e else cacheLookup rest k

/-- Remove every binding of a key. -/
def cacheErase (k : ℚ × ℚ) : Cache → Cache
  | [] => []
  | (k2, e) :: rest =>
    if k2 = k then cacheErase k rest else (k2, e) :: cacheErase k rest

/-- Dictionary assignment grid_intensity_cache[key] = entry. -/
def cacheInsert (k : ℚ × ℚ) (e : CacheEntry) (cache : Cache) : Cache :=
  (k, e) :: cacheErase k cache

/-- CACHE_TTL_SECONDS from carbon_profiler.py line 36. -/
def CACHE_TTL_SECONDS : ℚ := 300

/-- Embedding of the cache guard at carbon_profiler.py lines 174 to 178:
the cached value, provided the entry exists and now minus its timestamp is
strictly below the TTL. -/
def cacheFresh (cache : Cache) (k : ℚ × ℚ) (now : ℚ) : Option ℚ :=
  match cacheLookup cache k with
  | some entry =>
    if now - entry.timestamp < CACHE_TTL_SECONDS then some entry.value else none
  | none => none

/-- Outcome of fetch_grid_intensity_by_location: the parsed intensity if
any, plus whether an HTTP request was issued at all. -/
structure FetchOutcome where
  result : Option ℚ
  httpAttempted : Bool
deriving DecidableEq, Repr

/-- Embedding of fetch_grid_intensity_by_location (carbon_profiler.py lines
112 to 156).  With an empty ELECTRICITY_MAPS_TOKEN the function returns
None before any HTTP request.  Otherwise the outcome of the request is the
response parameter: some intensity on HTTP 200 with a numeric
carbonIntensity field, none on every failure path (network error, non-200
status, missing field, parse error), all of which are caught and turned
into None inside the source function. -/
def fetch_grid_intensity_by_location (token : String) (response : Option ℚ) :
    FetchOutcome :=
  if token = "" then { result := none, httpAttempted := false }
  else { result := response, httpAttempted := true }

/-- Result of one resolver call: the returned intensity, the cache state
after the call, and whether an HTTP request was issued. -/
structure ResolveResult where
  value : ℚ
  cache : Cache
  httpAttempted : Bool
deriving DecidableEq, Repr

/-- Embedding of get_grid_intensity_with_cache (carbon_profiler.py lines
158 to 197): serve a fresh cache entry without fetching; otherwise attempt
a live fetch, caching and returning its value on success, and returning the
regional fallback, cache untouched, on failure. -/
def get_grid_intensity_with_cache (token : String) (response : Option ℚ)
    (cache : Cache) (now : ℚ) (lat lon : ℚ) (country_code : Option String) :
    ResolveResult :=
  let key := cache_key lat lon
  match cacheFresh cache key now with
  | some v => { value := v, cache := cache, httpAttempted := false }
  | none =>
    let f := fetch_grid_intensity_by_location token response
    match f.result with
    | some intensity =>
      { value := intensity
        cache := cacheInsert key { value := intensity, timestamp := now } cache
        httpAttempted := f.httpAttempted }
    | none =>
      { value := fallbackFor country_code
        cache := cache
        httpAttempted := f.httpAttempted }

/-- Embedding of the grid-intensity resolution performed per metric by
process_unprocessed_metrics (carbon_profiler.py lines 246 to 255) together
with get_grid_intensity_with_cache: with both coordinates present the
cached or fetched value is used, otherwise the country fallback is returned
directly with no fetch and no cache access. -/
def resolve_grid_intensity (token : String) (response : Option ℚ)
    (cache : Cache) (now : ℚ) (lat lon : Option ℚ)
    (country_code : Option String) : ResolveResult :=
  match lat, lon with
  | some la, some lo =>
    get_grid_intensity_with_cache token response cache now la lo country_code
  | _, _ =>
    { value := fallbackFor country_code, cache := cache, httpAttempted := false }

/-! ## Forecast points and recommendation (grid_predictor.py lines 103 to 204) -/

/-- One row of the prediction dataframe returned by predict_next_24h. -/
structure ForecastPoint where
  hour : ℕ
  predicted_intensity : ℚ
  lower_bound : ℚ
  upper_bound : ℚ
deriving DecidableEq, Repr

/-- Sum of the predicted_intensity column. -/
def sumIntensity : List ForecastPoint → ℚ
  | [] => 0
  | p :: ps => p.predicted_intensity + sumIntensity ps

/-- Pandas mean over the predicted_intensity column. -/
def meanIntensity (ps : List ForecastPoint) : ℚ :=
  sumIntensity ps / (ps.length : ℚ)

/-- Embedding of the expression at grid_predictor.py line 166:
percent_vs_avg = ((current_intensity - avg_intensity) / avg_intensity) * 100. -/
def percent_vs_average (current avg : ℚ) : ℚ := (current - avg) / avg * 100

/-- Embedding of the tier cascade at grid_predictor.py lines 175 to 190:
strictly below -15 excellent, then strictly below 0 good, then strictly
below 15 moderate, else poor. -/
def statusFor (percent_vs_avg : ℚ) : String :=
  if percent_vs_avg < -15 then "excellent"
  else if percent_vs_avg < 0 then "good"
  else if percent_vs_avg < 15 then "moderate"
  else "poor"

/-- Embedding of the part of get_recommendation (grid_predictor.py lines
155 to 190) that determines the status: select the first forecast row whose
hour equals the current hour (iloc[0] on the filtered frame; none when the
filter is empty, where the source would raise IndexError), compute
percent_vs_avg against the mean, and classify. -/
def get_recommendation_status (ps : List ForecastPoint) (current_hour : ℕ) :
    Option String :=
  match (ps.filter (fun p => p.hour == current_hour)).head? with
  | none => none
  | some current_pred =>
    let avg_intensity := meanIntensity ps
    some (statusFor (percent_vs_average current_pred.predicted_intensity avg_intensity))

/-! ## Predictor model loading (grid_predictor.py lines 90 to 132, predictor_api.py) -/

/-- The fitted Prophet model is opaque external state; it is modelled by
the forecast it would yield for the next 24 hours. -/
structure ProphetModel where
  forecast : List ForecastPoint
deriving DecidableEq, Repr

/-- Embedding of a GridCarbonPredictor instance: the model path and the
in-memory model slot (None until loaded). -/
structure GridCarbonPredictor where
  model_path : String
  model : Option ProphetModel
deriving DecidableEq, Repr

/-- The persisted model blob on disk: none when no trained model file
exists at the path. -/
abbrev ModelDisk := Option ProphetModel

/-- Embedding of GridCarbonPredictor.load_model (grid_predictor.py lines 90
to 101): raises FileNotFoundError with an explicit message when no model
file exists, otherwise deserializes it into self.model. -/
def load_model (disk : ModelDisk) (p : GridCarbonPredictor) :
    Except String GridCarbonPredictor :=
  match disk with
  | none =>
    Except.error ("Model not found at " ++ p.model_path ++
      ". Please train the model first using train() method.")
  | some m => Except.ok { p with model := some m }

/-- Embedding of GridCarbonPredictor.predict_next_24h (grid_predictor.py
lines 103 to 132): when self.model is None, load_model runs first (its
error propagating to the caller); the forecast then comes from the loaded
model, which stays cached in self.model. -/
def predict_next_24h (disk : ModelDisk) (p : GridCarbonPredictor) :
    Except String (List ForecastPoint × GridCarbonPredictor) :=
  match p.model with
  | some m => Except.ok (m.forecast, p)
  | none =>
    match load_model disk p with
    | Except.error e => Except.error e
    | Except.ok p2 =>
      match p2.model with
      | some m => Except.ok (m.forecast, p2)
      | none => Except.error "unreachable"

/-- An HTTP response of the prediction API route: a JSON payload or an
error body, with the status code. -/
inductive ApiResult where
  | payload (points : List ForecastPoint) (code : ℕ)
  | err (message : String) (code : ℕ)
deriving DecidableEq, Repr

/-- Embedding of the /api/v1/predict/next-24h route (predictor_api.py lines
38 to 65): with no model in memory it returns the explicit error body
"Model not trained" with status 503 and never forecast data; otherwise it
serves the prediction, mapping an exception to a 500 error body. -/
def api_predict_next_24h (disk : ModelDisk) (p : GridCarbonPredictor) :
    ApiResult :=
  match p.model with
  | none => ApiResult.err "Model not trained" 503
  | some _ =>
    match predict_next_24h disk p with
    | Except.ok (pts, _) => ApiResult.payload pts 200
    | Except.error e => ApiResult.err e 500

/-! ## The store and the processing loop (carbon_profiler.py lines 210 to 307) -/

/-- One row of the device_metrics table, as selected by the query at
carbon_profiler.py lines 219 to 229. -/
structure Metric where
  id : ℕ
  device_id : String
  device_type : Option String
  timestamp : ℚ
  total_power_watts : ℚ
  latitude : Option ℚ
  longitude : Option ℚ
  country_code : Option String
deriving DecidableEq, Repr

/-- One row of the carbon_footprints table, as inserted at
carbon_profiler.py lines 274 to 297. -/
structure CarbonFootprintRecord where
  device_id : String
  device_type : String
  metric_id : ℕ
  timestamp : ℚ
  latitude : Option ℚ
  longitude : Option ℚ
  power_kwh : ℚ
  grid_intensity_gco2_per_kwh : ℚ
  operational_carbon_gco2 : ℚ
  embodied_carbon_gco2 : ℚ
  embodied_total_kgco2e : ℚ
  device_lifetime_years : ℚ
  total_carbon_gco2 : ℚ
deriving DecidableEq, Repr

/-- Embedding of the Python idiom metric["device_type"] or "laptop": both a
missing value and an empty string fall back to "laptop". -/
def pyOr (o : Option String) (dflt : String) : String :=
  match o with
  | some s => if s = "" then dflt else s
  | none => dflt

/-- Builds the footprint record inserted for one metric
(carbon_profiler.py lines 240 to 297), given the resolved grid intensity. -/
def mkFootprint (m : Metric) (grid_intensity : ℚ) : CarbonFootprintRecord :=
  let device_type := pyOr m.device_type "laptop"
  let a := attribute_carbon m.total_power_watts grid_intensity device_type
  { device_id := m.device_id
    device_type := device_type
    metric_id := m.id
    timestamp := m.timestamp
    latitude := m.latitude
    longitude := m.longitude
    power_kwh := a.power_kwh
    grid_intensity_gco2_per_kwh := grid_intensity
    operational_carbon_gco2 := a.operational_carbon_gco2
    embodied_carbon_gco2 := a.embodied_carbon_gco2
    embodied_total_kgco2e := embodiedKgFor device_type
    device_lifetime_years := lifetimeFor device_type
    total_carbon_gco2 := a.total_carbon_gco2 }

/-- The two tables the processing loop touches. -/
structure Store where
  metrics : List Metric
  footprints : List CarbonFootprintRecord
deriving DecidableEq, Repr

/-- The environment of one poll: the provider token, the outcome a live
fetch would have, and the current wall-clock time. -/
structure ResolveEnv where
  token : String
  response : Option ℚ
  now : ℚ
deriving DecidableEq, Repr

/-- A metric is unprocessed when no footprint record references its id:
embedding of the LEFT JOIN with WHERE c.id IS NULL at carbon_profiler.py
lines 219 to 229. -/
def isUnprocessed (footprints : List CarbonFootprintRecord) (m : Metric) : Bool :=
  !(footprints.any (fun c => c.metric_id == m.id))

/-- Insertion step of the ORDER BY m.timestamp sort. -/
def insertByTs (m : Metric) : List Metric → List Metric
  | [] => [m]
  | x :: xs =>
    if m.timestamp < x.timestamp then m :: x :: xs else x :: insertByTs m xs

/-- ORDER BY m.timestamp ascending. -/
def sortByTs : List Metric → List Metric
  | [] => []
  | x :: xs => insertByTs x (sortByTs xs)

/-- The batch one poll claims: unprocessed metrics, oldest first, LIMIT 100. -/
def claimedBatch (st : Store) : List Metric :=
  (sortByTs (st.metrics.filter (isUnprocessed st.footprints))).take 100

/-- Per-metric grid-intensity resolution inside the loop body
(carbon_profiler.py lines 246 to 255), threading the cache. -/
def resolveForMetric (env : ResolveEnv) (cache : Cache) (m : Metric) :
    ℚ × Cache :=
  let r := resolve_grid_intensity env.token env.response cache env.now
    m.latitude m.longitude m.country_code
  (r.value, r.cache)

/-- The body of the for-loop at carbon_profiler.py lines 240 to 299: one
footprint record per claimed metric, the cache threaded through the calls. -/
def runBatch (env : ResolveEnv) : Cache → List Metric →
    List CarbonFootprintRecord × Cache
  | cache, [] => ([], cache)
  | cache, m :: ms =>
    let p := resolveForMetric env cache m
    let rest := runBatch env p.2 ms
    (mkFootprint m p.1 :: rest.1, rest.2)

/-- Embedding of process_unprocessed_metrics (carbon_profiler.py lines 210
to 307): claim the batch, create one record per claimed metric, append the
records, and return the processed count (which is the batch length, also 0
on an empty batch where the source returns early). -/
def processUnprocessedMetrics (env : ResolveEnv) (cache : Cache) (st : Store) :
    ℕ × Cache × Store :=
  let batch := claimedBatch st
  let r := runBatch env cache batch
  (batch.length, r.2, { metrics := st.metrics, footprints := st.footprints ++ r.1 })

/-! ## Concrete fixtures used by witnesses and counterexamples -/

/-- A metric with index i: no coordinates, country IN, 10 W draw. -/
def exMetric (i : ℕ) : Metric :=
  { id := i, device_id := "dev", device_type := some "laptop",
    timestamp := (i : ℚ), total_power_watts := 10,
    latitude := none, longitude := none, country_code := some "IN" }

/-- A store holding 101 unprocessed metrics, one more than the poll batch
bound. -/
def exStore : Store :=
  { metrics := (List.range 101).map exMetric, footprints := [] }

/-- A store holding a single unprocessed metric. -/
def oneStore : Store := { metrics := [exMetric 0], footprints := [] }

/-- A poll environment with no provider token configured. -/
def envEx : ResolveEnv := { token := "", response := none, now := 0 }

/-- The first poll against exStore. -/
def exRun1 : ℕ × Cache × Store := processUnprocessedMetrics envEx [] exStore

/-- The second poll, immediately after the first, with no new metrics. -/
def exRun2 : ℕ × Cache × Store :=
  processUnprocessedMetrics envEx exRun1.2.1 exRun1.2.2

/-- A predictor instance before any model is loaded. -/
def exPredictor : GridCarbonPredictor :=
  { model_path := "models/grid_prophet.pkl", model := none }

/-- A trivial persisted model. -/
def exModel : ProphetModel := { forecast := [] }

/-- A cache holding one entry fetched at time 0. -/
def exCache : Cache := [((1, 2), { value := 500, timestamp := 0 })]

/-! ## Helper lemmas -/

theorem mkFootprint_metric_id (m : Metric) (gi : ℚ) :
    (mkFootprint m gi).metric_id = m.id := rfl

theorem mkFootprint_additive (m : Metric) (gi : ℚ) :
    (mkFootprint m gi).total_carbon_gco2
      = (mkFootprint m gi).operational_carbon_gco2
        + (mkFootprint m gi).embodied_carbon_gco2 := rfl

theorem runBatch_mem_shape (env : ResolveEnv) :
    ∀ (cache : Cache) (ms : List Metric) (r : CarbonFootprintRecord),
      r ∈ (runBatch env cache ms).1 → ∃ m gi, r = mkFootprint m gi := by
  intro cache ms
  induction ms generalizing cache with
  | nil => intro r h; simp [runBatch] at h
  | cons m ms ih =>
    intro r h
    simp only [runBatch, List.mem_cons] at h
    rcases h with h | h
    · exact ⟨m, _, h⟩
    · exact ih _ r h

theorem runBatch_ids (env : ResolveEnv) :
    ∀ (cache : Cache) (ms : List Metric),
      ((runBatch env cache ms).1).map (fun r => r.metric_id)
        = ms.map (fun m => m.id) := by
  intro cache ms
  induction ms generalizing cache with
  | nil => rfl
  | cons m ms ih => simp [runBatch, mkFootprint_metric_id, ih]

theorem mem_insertByTs (a m : Metric) :
    ∀ (l : List Metric), a ∈ insertByTs m l ↔ a = m ∨ a ∈ l := by
  intro l
  induction l with
  | nil => simp [insertByTs]
  | cons x xs ih =>
    by_cases h : m.timestamp < x.timestamp
    · simp [insertByTs, h]
    · simp [insertByTs, h, ih]
      tauto

theorem length_insertByTs (m : Metric) :
    ∀ (l : List Metric), (insertByTs m l).length = l.length + 1 := by
  intro l
  induction l with
  | nil => rfl
  | cons x xs ih =>
    by_cases h : m.timestamp < x.timestamp
    · simp [insertByTs, h]
    · simp [insertByTs, h, ih]

theorem mem_sortByTs (a : Metric) :
    ∀ (l : List Metric), a ∈ sortByTs l ↔ a ∈ l := by
  intro l
  induction l with
  | nil => simp [sortByTs]
  | cons x xs ih => simp [sortByTs, mem_insertByTs, ih]

theorem length_sortByTs :
    ∀ (l : List Metric), (sortByTs l).length = l.length := by
  intro l
  induction l with
  | nil => rfl
  | cons x xs ih => simp [sortByTs, length_insertByTs, ih]

theorem isUnprocessed_iff (fps : List CarbonFootprintRecord) (m : Metric) :
    isUnprocessed fps m = true ↔ ∀ r ∈ fps, r.metric_id ≠ m.id := by
  simp [isUnprocessed, List.any_eq_true]

theorem isUnprocessed_false_append (fps1 fps2 : List CarbonFootprintRecord)
    (m : Metric) (h : isUnprocessed fps1 m = false) :
    isUnprocessed (fps1 ++ fps2) m = false := by
  unfold isUnprocessed at h ⊢
  rw [List.any_append]
  rcases hb : fps1.any (fun c => c.metric_id == m.id)
  · rw [hb] at h
    simp at h
  · simp [hb]

/-! ## Claim theorems -/

/-- Claim C1, counterexample: on a forecast whose mean is 100 with the
current hour at 115 (exactly 15 percent above average), get_recommendation
classifies "poor", not "moderate"; with the current hour at 85 (exactly 15
percent below average) it classifies "good", not "excellent". -/
theorem c1_counterexample :
    get_recommendation_status [⟨0, 115, 0, 0⟩, ⟨1, 85, 0, 0⟩] 0 = some "poor" ∧
    get_recommendation_status [⟨0, 115, 0, 0⟩, ⟨1, 85, 0, 0⟩] 1 = some "good" ∧
    ¬ get_recommendation_status [⟨0, 115, 0, 0⟩, ⟨1, 85, 0, 0⟩] 0 = some "moderate" ∧
    ¬ get_recommendation_status [⟨0, 115, 0, 0⟩, ⟨1, 85, 0, 0⟩] 1 = some "excellent" := by
  refine ⟨?_, ?_, ?_, ?_⟩ <;>
    simp only [get_recommendation_status, List.filter, Nat.reduceBEq, List.head?] <;>
    norm_num [meanIntensity, sumIntensity, percent_vs_average, statusFor] <;>
    decide

/-- Claim C1, amended: the four tiers of the recommendation use strict
upper bounds throughout: percent versus average strictly below -15 is
excellent, in [-15, 0) good, in [0, 15) moderate, and at or above 15 poor;
hence exactly +15 percent classifies poor and exactly -15 percent
classifies good. -/
theorem c1_amended_boundaries :
    (∀ p : ℚ, p < -15 → statusFor p = "excellent") ∧
    (∀ p : ℚ, -15 ≤ p → p < 0 → statusFor p = "good") ∧
    (∀ p : ℚ, 0 ≤ p → p < 15 → statusFor p = "moderate") ∧
    (∀ p : ℚ, 15 ≤ p → statusFor p = "poor") ∧
    statusFor 15 = "poor" ∧ statusFor (-15) = "good" := by
  refine ⟨?_, ?_, ?_, ?_, by norm_num [statusFor], by norm_num [statusFor]⟩
  · intro p hp
    simp [statusFor, hp]
  · intro p h1 h2
    have n1 : ¬ p < -15 := by linarith
    simp [statusFor, n1, h2]
  · intro p h1 h2
    have n1 : ¬ p < -15 := by linarith
    have n2 : ¬ p < 0 := by linarith
    simp [statusFor, n1, n2, h2]
  · intro p h
    have n1 : ¬ p < -15 := by linarith
    have n2 : ¬ p < 0 := by linarith
    have n3 : ¬ p < 15 := by linarith
    simp [statusFor, n1, n2, n3]

/-- Claim C1, witness for the amended theorem: the four tiers at sample
points, via the amended theorem. -/
theorem c1_witness :
    statusFor (-16) = "excellent" ∧ statusFor (-1) = "good" ∧
    statusFor 14 = "moderate" ∧ statusFor 20 = "poor" :=
  ⟨c1_amended_boundaries.1 (-16) (by norm_num),
   c1_amended_boundaries.2.1 (-1) (by norm_num) (by norm_num),
   c1_amended_boundaries.2.2.1 14 (by norm_num) (by norm_num),
   c1_amended_boundaries.2.2.2.1 20 (by norm_num)⟩

/-- Claim C2, counterexample: attribution of a reading with power -5 W at
intensity 632 silently yields negative energy and negative operational
carbon; no error is raised or returned. -/
theorem c2_counterexample :
    (attribute_carbon (-5) 632 "laptop").power_kwh = -1/144000 ∧
    (attribute_carbon (-5) 632 "laptop").operational_carbon_gco2 = -79/18000 ∧
    (attribute_carbon (-5) 632 "laptop").operational_carbon_gco2 < 0 := by
  norm_num [attribute_carbon]

/-- Claim C2, amended: negative power draw is not rejected at attribution
time; the loop applies the same arithmetic and silently produces negative
energy and negative operational carbon for every negative power value. -/
theorem c2_amended_negative_power :
    ∀ (power_watts grid_intensity : ℚ) (device_type : String),
      power_watts < 0 → 0 < grid_intensity →
      (attribute_carbon power_watts grid_intensity device_type).power_kwh < 0 ∧
      (attribute_carbon power_watts grid_intensity device_type).operational_carbon_gco2 < 0 := by
  intro p gi dt hp hgi
  have hk : (p * 5) / (1000 * 3600) < 0 :=
    div_neg_of_neg_of_pos (by linarith) (by norm_num)
  constructor
  · exact hk
  · exact mul_neg_of_neg_of_pos hk hgi

/-- Claim C2, witness for the amended theorem at power -5 W, intensity 632. -/
theorem c2_witness :
    (attribute_carbon (-5) 632 "laptop").power_kwh < 0 ∧
    (attribute_carbon (-5) 632 "laptop").operational_carbon_gco2 < 0 :=
  c2_amended_negative_power (-5) 632 "laptop" (by norm_num) (by norm_num)

/-- Claim C4: for nonnegative power at the 5 second sample interval, the
attributed energy is power times 5 divided by 3600000 kWh exactly, and the
operational carbon is that energy times the resolved grid intensity. -/
theorem c4_unit_conversion :
    ∀ (power_watts grid_intensity : ℚ) (device_type : String),
      0 ≤ power_watts →
      (attribute_carbon power_watts grid_intensity device_type).power_kwh
        = power_watts * 5 / 3600000 ∧
      (attribute_carbon power_watts grid_intensity device_type).operational_carbon_gco2
        = power_watts * 5 / 3600000 * grid_intensity := by
  intro p gi dt _
  constructor
  · show (p * 5) / (1000 * 3600) = p * 5 / 3600000
    norm_num
  · show (p * 5) / (1000 * 3600) * gi = p * 5 / 3600000 * gi
    norm_num

/-- Claim C4, witness at 100 W and intensity 632. -/
theorem c4_witness :
    (attribute_carbon 100 632 "laptop").power_kwh = 100 * 5 / 3600000 ∧
    (attribute_carbon 100 632 "laptop").operational_carbon_gco2
      = 100 * 5 / 3600000 * 632 :=
  c4_unit_conversion 100 632 "laptop" (by norm_num)

/-- Claim C5: for every device class the embodied carbon per sample equals
the total embodied grams divided by the number of sample intervals in the
lifetime, and for the laptop profile at a 5 second interval it equals the
literal 200000 divided by (4 times 365 times 24 times 3600 over 5) grams,
within 1/100000 of 0.00793. -/
theorem c5_embodied_amortization :
    (∀ (device_type : String) (interval : ℚ),
      calculate_embodied_carbon_per_measurement device_type interval
        = (embodiedKgFor device_type * 1000)
          / (lifetimeFor device_type * 365 * 24 * 3600 / interval)) ∧
    calculate_embodied_carbon_per_measurement "laptop" 5
      = 200000 / (4 * 365 * 24 * 3600 / 5) ∧
    |calculate_embodied_carbon_per_measurement "laptop" 5 - 793/100000|
      < 1/100000 := by
  refine ⟨fun dt i => rfl, ?_, ?_⟩
  · simp only [calculate_embodied_carbon_per_measurement, embodiedKgFor, lifetimeFor,
      EMBODIED_CARBON_KG, EXPECTED_LIFETIME_YEARS, List.lookup, String.reduceBEq]
    norm_num
  · simp only [calculate_embodied_carbon_per_measurement, embodiedKgFor, lifetimeFor,
      EMBODIED_CARBON_KG, EXPECTED_LIFETIME_YEARS, List.lookup, String.reduceBEq]
    rw [abs_sub_lt_iff]
    norm_num

/-- Claim C3: grid-intensity resolution is total and never escalates: with
no provider credential no HTTP request is ever issued; with no credential
and an empty cache the result is the fallback table value, 632 for IN and
475 for an unknown or absent country code, whatever the coordinates,
absent ones included; and on every input the returned value is the
regional fallback, a cached value, or the live response, so a failed fetch
degrades to a fallback instead of propagating. -/
theorem c3_resolver_fallback :
    (∀ (response : Option ℚ) (cache : Cache) (now : ℚ) (lat lon : Option ℚ)
       (cc : Option String),
      (resolve_grid_intensity "" response cache now lat lon cc).httpAttempted
        = false) ∧
    (∀ (response : Option ℚ) (now : ℚ) (lat lon : Option ℚ),
      (resolve_grid_intensity "" response [] now lat lon (some "IN")).value = 632) ∧
    (∀ (response : Option ℚ) (now : ℚ) (lat lon : Option ℚ),
      (resolve_grid_intensity "" response [] now lat lon (some "XX")).value = 475) ∧
    (∀ (response : Option ℚ) (now : ℚ) (lat lon : Option ℚ),
      (resolve_grid_intensity "" response [] now lat lon none).value = 475) ∧
    (∀ (token : String) (response : Option ℚ) (cache : Cache) (now : ℚ)
       (lat lon : Option ℚ) (cc : Option String),
      (resolve_grid_intensity token response cache now lat lon cc).value
          = fallbackFor cc ∨
      (∃ k e, cacheLookup cache k = some e ∧
        (resolve_grid_intensity token response cache now lat lon cc).value
          = e.value) ∨
      response
        = some (resolve_grid_intensity token response cache now lat lon cc).value) := by
  refine ⟨?_, ?_, ?_, ?_, ?_⟩
  · intro response cache now lat lon cc
    rcases lat with _ | la
    · rfl
    rcases lon with _ | lo
    · rfl
    show (get_grid_intensity_with_cache "" response cache now la lo cc).httpAttempted
      = false
    unfold get_grid_intensity_with_cache
    rcases h : cacheFresh cache (cache_key la lo) now with _ | v
    · simp [h, fetch_grid_intensity_by_location]
    · simp [h]
  · intro response now lat lon
    rcases lat with _ | la
    · rfl
    rcases lon with _ | lo
    · rfl
    rfl
  · intro response now lat lon
    rcases lat with _ | la
    · rfl
    rcases lon with _ | lo
    · rfl
    rfl
  · intro response now lat lon
    rcases lat with _ | la
    · rfl
    rcases lon with _ | lo
    · rfl
    rfl
  · intro token response cache now lat lon cc
    rcases lat with _ | la
    · exact Or.inl rfl
    rcases lon with _ | lo
    · exact Or.inl rfl
    rcases h : cacheFresh cache (cache_key la lo) now with _ | v
    · by_cases ht : token = ""
      · exact Or.inl (by
          simp [resolve_grid_intensity, get_grid_intensity_with_cache, h,
            fetch_grid_intensity_by_location, ht])
      · rcases response with _ | r
        · exact Or.inl (by
            simp [resolve_grid_intensity, get_grid_intensity_with_cache, h,
              fetch_grid_intensity_by_location, ht])
        · refine Or.inr (Or.inr ?_)
          simp [resolve_grid_intensity, get_grid_intensity_with_cache, h,
            fetch_grid_intensity_by_location, ht]
    · refine Or.inr (Or.inl ?_)
      have h2 := h
      simp only [cacheFresh] at h2
      rcases hl : cacheLookup cache (cache_key la lo) with _ | e
      · rw [hl] at h2
        exact absurd h2 (by simp)
      · rw [hl] at h2
        simp only at h2
        refine ⟨cache_key la lo, e, hl, ?_⟩
        have hval :
            (resolve_grid_intensity token response cache now (some la) (some lo) cc).value
              = v := by
          simp [resolve_grid_intensity, get_grid_intensity_with_cache, h]
        rw [hval]
        by_cases hv : now - e.timestamp < CACHE_TTL_SECONDS
        · rw [if_pos hv] at h2
          exact (Option.some_inj.mp h2).symm
        · rw [if_neg hv] at h2
          exact absurd h2 (by simp)

/-- Claim C6: every footprint record the processing loop creates satisfies
the additivity invariant, total carbon equals operational plus embodied,
exactly. -/
theorem c6_carbon_additivity :
    ∀ (env : ResolveEnv) (cache : Cache) (st : Store) (r : CarbonFootprintRecord),
      r ∈ (processUnprocessedMetrics env cache st).2.2.footprints →
      r ∈ st.footprints ∨
      r.total_carbon_gco2
        = r.operational_carbon_gco2 + r.embodied_carbon_gco2 := by
  intro env cache st r h
  simp only [processUnprocessedMetrics, List.mem_append] at h
  rcases h with h | h
  · exact Or.inl h
  · right
    obtain ⟨m, gi, rfl⟩ := runBatch_mem_shape env cache (claimedBatch st) r h
    exact mkFootprint_additive m gi

/-- Claim C6, witness: the record created for the single metric of
oneStore satisfies the additivity invariant, via the claim theorem. -/
theorem c6_witness :
    (mkFootprint (exMetric 0) 632).total_carbon_gco2
      = (mkFootprint (exMetric 0) 632).operational_carbon_gco2
        + (mkFootprint (exMetric 0) 632).embodied_carbon_gco2 :=
  (c6_carbon_additivity envEx [] oneStore (mkFootprint (exMetric 0) 632)
    (by
      have hf : (processUnprocessedMetrics envEx [] oneStore).2.2.footprints
          = [mkFootprint (exMetric 0) 632] := by
        simp [processUnprocessedMetrics, claimedBatch, oneStore, exMetric, sortByTs,
          insertByTs, isUnprocessed, runBatch, resolveForMetric,
          resolve_grid_intensity, fallbackFor, FALLBACK_GRID_INTENSITY, envEx,
          List.filter, List.lookup]
      rw [hf]
      exact List.mem_singleton.mpr rfl)).resolve_left (by simp [oneStore])

theorem cacheLookup_insert_self (k : ℚ × ℚ) (e : CacheEntry) (cache : Cache) :
    cacheLookup (cacheInsert k e cache) k = some e := by
  simp [cacheInsert, cacheLookup]

/-- Claim C7: after a successful fetch wrote the key at time t1, a call at
t2 with t2 - t1 strictly below 300 seconds and the same key issues no HTTP
request, returns the cached value and leaves the cache unchanged; a call at
or beyond the TTL ignores the expired entry, issues a new request, and
returns the fresh response or the fallback, never the stale value; and
each successful fetch overwrites the entry for the key with the fetched
value and the fetch time together. -/
theorem c7_cache_ttl :
    (∀ (token : String) (v : ℚ) (cache : Cache) (t1 t2 : ℚ) (lat lon : ℚ)
       (cc : Option String) (token2 : String) (resp2 : Option ℚ)
       (cc2 : Option String),
      token ≠ "" →
      cacheFresh cache (cache_key lat lon) t1 = none →
      t2 - t1 < 300 →
      get_grid_intensity_with_cache token2 resp2
          (get_grid_intensity_with_cache token (some v) cache t1 lat lon cc).cache
          t2 lat lon cc2
        = { value := v
            cache := (get_grid_intensity_with_cache token (some v) cache t1 lat lon cc).cache
            httpAttempted := false }) ∧
    (∀ (token : String) (resp : Option ℚ) (cache : Cache) (now : ℚ)
       (lat lon : ℚ) (cc : Option String) (entry : CacheEntry),
      token ≠ "" →
      cacheLookup cache (cache_key lat lon) = some entry →
      CACHE_TTL_SECONDS ≤ now - entry.timestamp →
      (get_grid_intensity_with_cache token resp cache now lat lon cc).httpAttempted
          = true ∧
      (get_grid_intensity_with_cache token resp cache now lat lon cc).value
          = (match resp with | some v => v | none => fallbackFor cc)) ∧
    (∀ (token : String) (v : ℚ) (cache : Cache) (now : ℚ) (lat lon : ℚ)
       (cc : Option String),
      token ≠ "" →
      cacheFresh cache (cache_key lat lon) now = none →
      cacheLookup
          (get_grid_intensity_with_cache token (some v) cache now lat lon cc).cache
          (cache_key lat lon)
        = some { value := v, timestamp := now } ∧
      (get_grid_intensity_with_cache token (some v) cache now lat lon cc).value
        = v) := by
  have hsucc : ∀ (token : String) (v : ℚ) (cache : Cache) (now : ℚ)
      (lat lon : ℚ) (cc : Option String), token ≠ "" →
      cacheFresh cache (cache_key lat lon) now = none →
      get_grid_intensity_with_cache token (some v) cache now lat lon cc
        = { value := v
            cache := cacheInsert (cache_key lat lon)
              { value := v, timestamp := now } cache
            httpAttempted := true } := by
    intro token v cache now lat lon cc ht hcf
    simp [get_grid_intensity_with_cache, hcf, fetch_grid_intensity_by_location, ht]
  refine ⟨?_, ?_, ?_⟩
  · intro token v cache t1 t2 lat lon cc token2 resp2 cc2 ht hcf hlt
    rw [hsucc token v cache t1 lat lon cc ht hcf]
    have hfresh :
        cacheFresh
          (cacheInsert (cache_key lat lon) { value := v, timestamp := t1 } cache)
          (cache_key lat lon) t2 = some v := by
      simp [cacheFresh, cacheLookup_insert_self, CACHE_TTL_SECONDS, hlt]
    simp [get_grid_intensity_with_cache, hfresh]
  · intro token resp cache now lat lon cc entry ht hl hage
    have hcf : cacheFresh cache (cache_key lat lon) now = none := by
      have hlt : ¬ now - entry.timestamp < CACHE_TTL_SECONDS := by linarith
      simp [cacheFresh, hl, hlt]
    rcases resp with _ | r
    · constructor
      · simp [get_grid_intensity_with_cache, hcf,
          fetch_grid_intensity_by_location, ht]
      · simp [get_grid_intensity_with_cache, hcf,
          fetch_grid_intensity_by_location, ht]
    · rw [hsucc token r cache now lat lon cc ht hcf]
      exact ⟨rfl, rfl⟩
  · intro token v cache now lat lon cc ht hcf
    rw [hsucc token v cache now lat lon cc ht hcf]
    exact ⟨cacheLookup_insert_self _ _ _, rfl⟩

/-- Claim C7, witness: the three TTL behaviors at a concrete key, a fetch
at time 0 returning 350, a second call at time 200, and an expired entry
queried at time 400, via the claim theorem. -/
theorem c7_witness :
    get_grid_intensity_with_cache "tok" (some 999)
        (get_grid_intensity_with_cache "tok" (some 350) [] 0 1 2 (some "IN")).cache
        200 1 2 (some "IN")
      = { value := 350
          cache := (get_grid_intensity_with_cache "tok" (some 350) [] 0 1 2
            (some "IN")).cache
          httpAttempted := false } ∧
    (get_grid_intensity_with_cache "tok" (some 400) exCache 400 1 2
        (some "IN")).httpAttempted = true ∧
    cacheLookup
        (get_grid_intensity_with_cache "tok" (some 350) [] 0 1 2 (some "IN")).cache
        (cache_key 1 2)
      = some { value := 350, timestamp := 0 } :=
  ⟨c7_cache_ttl.1 "tok" 350 [] 0 200 1 2 (some "IN") "tok" (some 999) (some "IN")
      (by simp) (by simp [cacheFresh, cacheLookup]) (by norm_num),
   (c7_cache_ttl.2.1 "tok" (some 400) exCache 400 1 2 (some "IN")
      { value := 500, timestamp := 0 } (by simp)
      (by
        have : cache_key 1 2 = (1, 2) := by
          norm_num [cache_key, pyRound1, roundHalfToEven]
        simp [this, exCache, cacheLookup])
      (by norm_num [CACHE_TTL_SECONDS])).1,
   (c7_cache_ttl.2.2 "tok" 350 [] 0 1 2 (some "IN") (by simp)
      (by simp [cacheFresh, cacheLookup])).1⟩

/-- Claim C9: with no persisted model and no model in memory, every
prediction call returns an explicit error and the API route answers 503
with the body "Model not trained", never forecast data; every successful
prediction result is exactly the forecast of a model that was in memory or
was loaded from disk on that call; and with a persisted model present the
first call loads it lazily and later calls reuse the in-memory copy
without consulting disk. -/
theorem c9_model_unavailable :
    (∀ p : GridCarbonPredictor, p.model = none →
      predict_next_24h none p
        = Except.error ("Model not found at " ++ p.model_path ++
            ". Please train the model first using train() method.")) ∧
    (∀ p : GridCarbonPredictor, p.model = none →
      api_predict_next_24h none p = ApiResult.err "Model not trained" 503) ∧
    (∀ (disk : ModelDisk) (p : GridCarbonPredictor)
       (pts : List ForecastPoint) (p2 : GridCarbonPredictor),
      predict_next_24h disk p = Except.ok (pts, p2) →
      ∃ m : ProphetModel,
        (p.model = some m ∨ (p.model = none ∧ disk = some m)) ∧
        pts = m.forecast ∧ p2.model = some m) ∧
    (∀ (p : GridCarbonPredictor) (m : ProphetModel), p.model = none →
      predict_next_24h (some m) p
          = Except.ok (m.forecast, { p with model := some m }) ∧
      ∀ disk2 : ModelDisk,
        predict_next_24h disk2 { p with model := some m }
          = Except.ok (m.forecast, { p with model := some m })) := by
  refine ⟨?_, ?_, ?_, ?_⟩
  · intro p hp
    simp [predict_next_24h, hp, load_model]
  · intro p hp
    simp [api_predict_next_24h, hp]
  · intro disk p pts p2 h
    rcases p with ⟨path, pm⟩
    rcases pm with _ | m
    · rcases disk with _ | md
      · simp [predict_next_24h, load_model] at h
      · simp [predict_next_24h, load_model] at h
        refine ⟨md, Or.inr ⟨rfl, rfl⟩, ?_, ?_⟩
        · exact h.1.symm
        · rw [← h.2]
    · simp [predict_next_24h] at h
      refine ⟨m, Or.inl rfl, ?_, ?_⟩
      · exact h.1.symm
      · rw [← h.2]
  · intro p m hp
    constructor
    · simp [predict_next_24h, hp, load_model]
    · intro disk2
      simp [predict_next_24h]

/-- Claim C9, witness: the unavailable error, the 503 route answer, and
the lazy load with caching at a concrete predictor and model, via the
claim theorem. -/
theorem c9_witness :
    predict_next_24h none exPredictor
      = Except.error ("Model not found at " ++ exPredictor.model_path ++
          ". Please train the model first using train() method.") ∧
    api_predict_next_24h none exPredictor = ApiResult.err "Model not trained" 503 ∧
    predict_next_24h (some exModel) exPredictor
      = Except.ok (exModel.forecast, { exPredictor with model := some exModel }) ∧
    predict_next_24h none { exPredictor with model := some exModel }
      = Except.ok (exModel.forecast, { exPredictor with model := some exModel }) :=
  ⟨c9_model_unavailable.1 exPredictor rfl,
   c9_model_unavailable.2.1 exPredictor rfl,
   (c9_model_unavailable.2.2.2 exPredictor exModel rfl).1,
   (c9_model_unavailable.2.2.2 exPredictor exModel rfl).2 none⟩

/-- Claim C10: a resolver call either leaves the cache exactly as it was,
or, precisely when the live fetch succeeded, overwrites the entry for the
key with the fetched value; fallback and default values are never written,
and a skipped fetch (no token) or a failed fetch (no response) always
leaves the cache unchanged. -/
theorem c10_cache_purity :
    (∀ (token : String) (response : Option ℚ) (cache : Cache) (now lat lon : ℚ)
       (cc : Option String),
      (get_grid_intensity_with_cache token response cache now lat lon cc).cache
          = cache ∨
      ∃ v, (fetch_grid_intensity_by_location token response).result = some v ∧
        (get_grid_intensity_with_cache token response cache now lat lon cc).value
          = v ∧
        (get_grid_intensity_with_cache token response cache now lat lon cc).cache
          = cacheInsert (cache_key lat lon)
              { value := v, timestamp := now } cache) ∧
    (∀ (token : String) (response : Option ℚ) (cache : Cache) (now lat lon : ℚ)
       (cc : Option String),
      token = "" ∨ response = none →
      (get_grid_intensity_with_cache token response cache now lat lon cc).cache
        = cache) := by
  have main : ∀ (token : String) (response : Option ℚ) (cache : Cache)
      (now lat lon : ℚ) (cc : Option String),
      (get_grid_intensity_with_cache token response cache now lat lon cc).cache
          = cache ∨
      ∃ v, (fetch_grid_intensity_by_location token response).result = some v ∧
        (get_grid_intensity_with_cache token response cache now lat lon cc).value
          = v ∧
        (get_grid_intensity_with_cache token response cache now lat lon cc).cache
          = cacheInsert (cache_key lat lon)
              { value := v, timestamp := now } cache := by
    intro token response cache now lat lon cc
    rcases h : cacheFresh cache (cache_key lat lon) now with _ | v
    · rcases hf : (fetch_grid_intensity_by_location token response).result with _ | v
      · left
        simp [get_grid_intensity_with_cache, h, hf]
      · right
        refine ⟨v, rfl, ?_, ?_⟩ <;> simp [get_grid_intensity_with_cache, h, hf]
    · left
      simp [get_grid_intensity_with_cache, h]
  refine ⟨main, ?_⟩
  · intro token response cache now lat lon cc hskip
    rcases main token response cache now lat lon cc with h | ⟨v, hf, _, _⟩
    · exact h
    · exfalso
      rcases hskip with ht | hr
      · simp [fetch_grid_intensity_by_location, ht] at hf
      · rw [hr] at hf
        unfold fetch_grid_intensity_by_location at hf
        split at hf <;> simp at hf

/-- Claim C10, witness: with no token configured the call at a concrete
populated cache leaves it unchanged, via the claim theorem. -/
theorem c10_witness :
    (get_grid_intensity_with_cache "" (some 500) exCache 0 1 2 (some "IN")).cache
      = exCache :=
  c10_cache_purity.2 "" (some 500) exCache 0 1 2 (some "IN") (Or.inl rfl)

theorem take_all_of_length_le {α : Type} :
    ∀ (l : List α) (n : ℕ), l.length ≤ n → l.take n = l := by
  intro l
  induction l with
  | nil => intro n _; simp
  | cons x xs ih =>
    intro n hn
    rcases n with _ | k
    · exact absurd hn (by simp)
    · simp only [List.take]
      rw [ih k (by simpa using hn)]

theorem processed_after (env : ResolveEnv) (cache : Cache) (st : Store)
    (hlen : (st.metrics.filter (isUnprocessed st.footprints)).length ≤ 100) :
    ∀ m ∈ st.metrics,
      isUnprocessed ((processUnprocessedMetrics env cache st).2.2.footprints) m
        = false := by
  intro m hm
  rcases hb : isUnprocessed st.footprints m with _ | _
  · exact isUnprocessed_false_append _ _ _ hb
  · have hmf : m ∈ st.metrics.filter (isUnprocessed st.footprints) :=
      List.mem_filter.mpr ⟨hm, hb⟩
    have hms : m ∈ sortByTs (st.metrics.filter (isUnprocessed st.footprints)) :=
      (mem_sortByTs _ _).mpr hmf
    have hcb : m ∈ claimedBatch st := by
      unfold claimedBatch
      rw [take_all_of_length_le _ 100 (by rw [length_sortByTs]; exact hlen)]
      exact hms
    have hid : m.id ∈ (claimedBatch st).map (fun x => x.id) :=
      List.mem_map_of_mem _ hcb
    rw [← runBatch_ids env cache (claimedBatch st)] at hid
    obtain ⟨r, hr, hrid⟩ := List.mem_map.mp hid
    show isUnprocessed
      (st.footprints ++ (runBatch env cache (claimedBatch st)).1) m = false
    unfold isUnprocessed
    rw [List.any_append]
    have h2 : (runBatch env cache (claimedBatch st)).1.any
        (fun c => c.metric_id == m.id) = true :=
      List.any_eq_true.mpr ⟨r, hr, by simp [hrid]⟩
    simp [h2]

theorem second_batch_nil (env : ResolveEnv) (cache : Cache) (st : Store)
    (hlen : (st.metrics.filter (isUnprocessed st.footprints)).length ≤ 100) :
    claimedBatch (processUnprocessedMetrics env cache st).2.2 = [] := by
  have hf : ((processUnprocessedMetrics env cache st).2.2.metrics).filter
      (isUnprocessed (processUnprocessedMetrics env cache st).2.2.footprints)
        = [] := by
    rw [List.filter_eq_nil_iff]
    intro m hm
    have hmem : m ∈ st.metrics := hm
    rw [processed_after env cache st hlen m hmem]
    simp
  unfold claimedBatch
  rw [hf]
  rfl

/-- Claim C8, counterexample: with 101 unprocessed readings in the store,
the first poll claims only 100 (the batch bound) and the second poll, with
no new readings inserted between the calls, processes the remaining one
and returns count 1, not 0. -/
theorem c8_counterexample :
    exRun1.1 = 100 ∧ exRun2.1 = 1 ∧ ¬ exRun2.1 = 0 := by
  refine ⟨by decide, by decide, by decide⟩

/-- Claim C8, amended: a reading is unprocessed exactly when no footprint
record references its id; each poll creates exactly one record per claimed
reading, appending them to the store; and provided at most 100 readings
are unprocessed before the first call (each poll claims at most 100),
running the loop twice in succession with no new readings inserted creates
zero new records the second time and returns count 0. -/
theorem c8_amended_idempotence :
    (∀ (fps : List CarbonFootprintRecord) (m : Metric),
      isUnprocessed fps m = true ↔ ∀ r ∈ fps, r.metric_id ≠ m.id) ∧
    (∀ (env : ResolveEnv) (cache : Cache) (st : Store),
      (processUnprocessedMetrics env cache st).1 = (claimedBatch st).length ∧
      ((runBatch env cache (claimedBatch st)).1).map (fun r => r.metric_id)
        = (claimedBatch st).map (fun m => m.id) ∧
      (processUnprocessedMetrics env cache st).2.2.footprints
        = st.footprints ++ (runBatch env cache (claimedBatch st)).1) ∧
    (∀ (env1 env2 : ResolveEnv) (cache : Cache) (st : Store),
      (st.metrics.filter (isUnprocessed st.footprints)).length ≤ 100 →
      (processUnprocessedMetrics env2
          (processUnprocessedMetrics env1 cache st).2.1
          (processUnprocessedMetrics env1 cache st).2.2).1 = 0 ∧
      (processUnprocessedMetrics env2
          (processUnprocessedMetrics env1 cache st).2.1
          (processUnprocessedMetrics env1 cache st).2.2).2.2.footprints
        = (processUnprocessedMetrics env1 cache st).2.2.footprints) := by
  refine ⟨isUnprocessed_iff, fun env cache st => ⟨rfl, runBatch_ids env cache _, rfl⟩,
    ?_⟩
  intro env1 env2 cache st hlen
  have hnil := second_batch_nil env1 cache st hlen
  constructor
  · show (claimedBatch (processUnprocessedMetrics env1 cache st).2.2).length = 0
    rw [hnil]
    rfl
  · show (processUnprocessedMetrics env1 cache st).2.2.footprints ++
        (runBatch env2 (processUnprocessedMetrics env1 cache st).2.1
          (claimedBatch (processUnprocessedMetrics env1 cache st).2.2)).1
      = (processUnprocessedMetrics env1 cache st).2.2.footprints
    rw [hnil]
    exact List.append_nil _

/-- Claim C8, witness for the amended theorem: a store with a single
unprocessed reading is fully drained by the first poll, and the second
poll returns 0 and adds nothing, via the amended theorem. -/
theorem c8_witness :
    (processUnprocessedMetrics envEx
        (processUnprocessedMetrics envEx [] oneStore).2.1
        (processUnprocessedMetrics envEx [] oneStore).2.2).1 = 0 ∧
    (processUnprocessedMetrics envEx
        (processUnprocessedMetrics envEx [] oneStore).2.1
        (processUnprocessedMetrics envEx [] oneStore).2.2).2.2.footprints
      = (processUnprocessedMetrics envEx [] oneStore).2.2.footprints :=
  c8_amended_idempotence.2.2 envEx envEx [] oneStore (by decide)

end CloudProject
